import Mathlib

/-!
# lumber_bot: a shallow embedding of the update-ingestion and dispatch loop

The Go sources embedded here are `bot.go` (`Bot.Handle`, `Bot.Poll`),
`reddit/reddit.go` (`Reddit.SetAccessToken`, `Reddit.TopListings`),
`reddit/subreddits.go` (`NewSubreddits`, `Subreddits.PickRandom`) and
`telegram/telegram.go` (`Telegram.GetUpdates`, `Telegram.SendMessage`).

Conventions.
* Go `string` is `String`, Go `int` and `int64` are `Int`; the one place where
  the program does arithmetic on an `int` (`offset += 1` in `Bot.Poll`) wraps
  at 64 bits through `wrapInt`.
* A Go `error` is `Option GoError` (`none` is `nil`), a pointer that may be
  `nil` is an `Option`.
* The network, the JSON and YAML decoders and the random source are outside
  the repository: they are fields of the `World` records, and every theorem
  quantifies over them.
* A run-time panic is a value of `Fault`.
-/

namespace LumberBot

/-! ## Go runtime and library -/

/-- Go error values, identified by their message. -/
abbrev GoError := String

/-- Run-time panics the embedded code can raise. -/
inductive Fault where
  | indexOutOfRange
  | nilDereference
  | invalidIntnArgument
  deriving DecidableEq, Repr

/-- Largest value of a 64-bit Go `int`. -/
def maxInt : Int := 9223372036854775807

/-- Two's complement wrap-around of a 64-bit Go `int`. -/
def wrapInt (x : Int) : Int :=
  (x + 9223372036854775808) % 18446744073709551616 - 9223372036854775808

/-- The pieces of a character sequence between occurrences of `sep`; there is
always at least one piece. -/
def splitOnChar (sep : Char) : List Char → List (List Char)
  | [] => [[]]
  | c :: cs =>
    if c = sep then [] :: splitOnChar sep cs
    else
      match splitOnChar sep cs with
      | [] => [[c]]
      | piece :: pieces => (c :: piece) :: pieces

/-- Go `strings.Split(s, sep)` for a one-byte separator, the only form the
program uses (`strings.Split(text, " ")`). -/
def strings_Split (s : String) (sep : Char) : List String :=
  (splitOnChar sep s.data).map String.mk

/-- Go `rand.Intn(n)`: panics when `n <= 0`, otherwise a value in `[0, n)`.
`draw` is the raw output of the generator; every value in `[0, n)` is the
result for some draw. The program only calls it on a `len`, hence `n : Nat`. -/
def rand_Intn (draw : Nat) (n : Nat) : Except Fault Nat :=
  if n = 0 then .error .invalidIntnArgument else .ok (draw % n)

/-- An HTTP request as the program builds it; `Form` holds the `url.Values`
it sends, in the body or in the query, in the key order of `Encode`. -/
structure Request where
  Method : String
  Url : String
  Header : List (String × String)
  BasicAuth : Option (String × String)
  Form : List (String × String)

/-- An HTTP response: `Body` is what `ioutil.ReadAll(response.Body)` returns,
the bytes read and the read error. -/
structure HttpResponse where
  Body : String × Option GoError

/-! ## package reddit -/

namespace reddit

/-- `reddit.Token`. -/
structure Token where
  AccessToken : String
  ExpiresIn : Int
  Scope : String
  TokenType : String
  deriving DecidableEq, Repr

/-- `reddit.Listing`. -/
structure Listing where
  Url : String
  Title : String
  Subreddit : String
  deriving DecidableEq, Repr

/-- An element of `ListingsResponse.ResponseData.Listings`. -/
structure Child where
  Listing : Listing
  deriving DecidableEq, Repr

/-- The anonymous struct `ListingsResponse.ResponseData`. -/
structure ResponseData where
  Listings : List Child
  deriving DecidableEq, Repr

/-- `reddit.ListingsResponse`. -/
structure ListingsResponse where
  ResponseData : ResponseData
  deriving DecidableEq, Repr

/-- `reddit.Reddit`, without the HTTP client, which is part of `World`. -/
structure Reddit where
  UserName : String
  Password : String
  ClientId : String
  ClientSecret : String
  Token : Token
  UserAgent : String
  deriving DecidableEq, Repr

/-- What the Reddit client meets outside the process during one call.
`unmarshalToken body t` is `json.Unmarshal(body, &r.Token)` started on the
stored token `t`: the token it leaves in place and its error.
`unmarshalListings body` is `json.Unmarshal(body, &result)` on a fresh
`*ListingsResponse`: an error, or the pointer it leaves (`none` is `nil`). -/
structure World where
  Do : Request → Except GoError HttpResponse
  unmarshalToken : String → Token → Token × Option GoError
  unmarshalListings : String → Except GoError (Option ListingsResponse)

/-- The request `Reddit.SetAccessToken` builds (its first lines). -/
def Reddit.accessTokenRequest (r : Reddit) : Request :=
  let data := [("grant_type", "password"), ("password", r.Password), ("username", r.UserName)]
  { Method := "POST", Url := "https://www.reddit.com/api/v1/access_token",
    Header := [("User-Agent", r.UserAgent)],
    BasicAuth := some (r.ClientId, r.ClientSecret), Form := data }

/-- `Reddit.SetAccessToken`: the client afterwards and the returned error. -/
def Reddit.SetAccessToken (r : Reddit) (w : World) : Reddit × Option GoError :=
  let request := r.accessTokenRequest
  match w.Do request with
  | .error err => (r, some err)
  | .ok response =>
    match response.Body with
    | (_, some err) => (r, some err)
    | (body, none) =>
      match w.unmarshalToken body r.Token with
      | (token, some err) => ({ r with Token := token }, some err)
      | (token, none) => ({ r with Token := token }, none)

/-- `Reddit.RefreshAccessToken`, the first `ws.length` turns of its endless
loop: each turn calls `SetAccessToken` and only logs the error. -/
def Reddit.RefreshAccessToken (r : Reddit) (ws : List World) : Reddit :=
  ws.foldl (fun r w => (r.SetAccessToken w).1) r

/-- `Reddit.TopListings`: the returned pointer and error. The URL is taken
to be one `http.NewRequest` accepts; the program discards that function's
error. -/
def Reddit.TopListings (r : Reddit) (w : World) (subreddit : String) (time : String)
    (limit : Int) : Option ListingsResponse × Option GoError :=
  let url := "https://oauth.reddit.com/r/" ++ subreddit ++ "/top?t=" ++ time ++ "&limit="
    ++ toString limit
  let request : Request :=
    { Method := "GET", Url := url,
      Header := [("Authorization", r.Token.TokenType ++ " " ++ r.Token.AccessToken),
                 ("User-Agent", r.UserAgent)],
      BasicAuth := none, Form := [] }
  match w.Do request with
  | .error err => (none, some err)
  | .ok response =>
    match response.Body with
    | (_, some err) => (none, some err)
    | (body, none) =>
      match w.unmarshalListings body with
      | .error err => (none, some err)
      | .ok result => (result, none)

/-- One entry of `Subreddits.Custom`. -/
structure CustomGroup where
  Chats : List Int
  Subreddits : List String
  deriving DecidableEq, Repr

/-- `reddit.Subreddits`; the Go map `Chats` is a finite function, `none` for
an absent key. -/
structure Subreddits where
  Default : List String
  Custom : List CustomGroup
  Chats : Int → Option (List String)

/-- The assignment `m[k] = v` on a Go map. -/
def mapSet (m : Int → Option (List String)) (k : Int) (v : List String) :
    Int → Option (List String) :=
  fun k' => if k' = k then some v else m k'

/-- The two nested loops of `NewSubreddits` that fill `Chats`, started on
the map `m`. -/
def fillChats (custom : List CustomGroup) (m : Int → Option (List String)) :
    Int → Option (List String) :=
  custom.foldl (fun m group => group.Chats.foldl (fun m chat => mapSet m chat group.Subreddits) m) m

/-- `NewSubreddits`: `file` is the result of `ioutil.ReadFile(filepath)` and
`yamlUnmarshal` is `yaml.Unmarshal` into a fresh `Subreddits`. -/
def NewSubreddits (filepath : String) (file : Except GoError String)
    (yamlUnmarshal : String → Except GoError Subreddits) : Except GoError Subreddits :=
  match file with
  | .error err => .error ("Could not read file " ++ filepath ++ ": " ++ err)
  | .ok file =>
    match yamlUnmarshal file with
    | .error err => .error ("Could not parse yaml: " ++ err)
    | .ok subreddits =>
      .ok { subreddits with Chats := fillChats subreddits.Custom (fun _ => none) }

/-- `Subreddits.PickRandom`; `draw` is the output of the random generator. -/
def Subreddits.PickRandom (s : Subreddits) (draw : Nat) (chatId : Int) : Except Fault String :=
  let list :=
    match s.Chats chatId with
    | some chatList => chatList
    | none => s.Default
  match rand_Intn draw list.length with
  | .error f => .error f
  | .ok i =>
    match list[i]? with
    | none => .error .indexOutOfRange
    | some subreddit => .ok subreddit

end reddit

/-! ## package telegram -/

namespace telegram

/-- `telegram.Chat`. -/
structure Chat where
  Id : Int
  deriving DecidableEq, Repr

/-- `telegram.Message`. -/
structure Message where
  MessageId : Int
  Chat : Chat
  Text : String
  deriving DecidableEq, Repr

/-- `telegram.Update`. -/
structure Update where
  UpdateId : Int
  Message : Message
  deriving DecidableEq, Repr

/-- `telegram.Response`; `Result` is the raw JSON of the result. -/
structure Response where
  Ok : Bool
  Description : String
  Result : String
  deriving DecidableEq, Repr

/-- `telegram.Telegram`, without the HTTP client, which is part of `World`. -/
structure Telegram where
  BotId : String
  UserAgent : String
  deriving DecidableEq, Repr

/-- What the Telegram client meets outside the process during one call:
the transport and `json.Unmarshal` into a fresh `Response` and into a fresh
`[]Update`. -/
structure World where
  Do : Request → Except GoError HttpResponse
  unmarshalResponse : String → Except GoError Response
  unmarshalUpdates : String → Except GoError (List Update)

/-- `Telegram.GetUpdates`: the returned slice (`[]` is `nil`) and error.
The URL is taken to be one `http.NewRequest` accepts; the program discards
that function's error. -/
def Telegram.GetUpdates (b : Telegram) (w : World) (offset : Int) :
    List Update × Option GoError :=
  let request : Request :=
    { Method := "GET",
      Url := "https://api.telegram.org/" ++ b.BotId ++ "/getUpdates?offset=" ++ toString offset
        ++ "&timeout=20&allowed_updates=message",
      Header := [("User-Agent", b.UserAgent)], BasicAuth := none, Form := [] }
  match w.Do request with
  | .error err => ([], some err)
  | .ok response =>
    let body := response.Body.1
    match w.unmarshalResponse body with
    | .error err => ([], some err)
    | .ok result =>
      if !result.Ok then
        ([], some ("Could not get updates (" ++ result.Description ++ "): " ++ result.Result))
      else
        match w.unmarshalUpdates result.Result with
        | .error err => ([], some err)
        | .ok updates => (updates, none)

/-- `Telegram.SendMessage`: the returned error. The URL is taken to be one
`http.NewRequest` accepts; the program discards that function's error. -/
def Telegram.SendMessage (b : Telegram) (w : World) (ChatId : Int) (Text : String)
    (ReplyToMessageId : Int) : Option GoError :=
  let request : Request :=
    { Method := "GET", Url := "https://api.telegram.org/" ++ b.BotId ++ "/sendMessage",
      Header := [("User-Agent", b.UserAgent)], BasicAuth := none,
      Form := [("chat_id", toString ChatId),
               ("reply_to_message_id", toString ReplyToMessageId), ("text", Text)] }
  match w.Do request with
  | .error err => some err
  | .ok response =>
    let body := response.Body.1
    match w.unmarshalResponse body with
    | .error err => some ("Could not unmarshall response " ++ body ++ ": " ++ err)
    | .ok result =>
      if !result.Ok then
        some ("Could not send message (" ++ result.Description ++ "): " ++ result.Result)
      else none

end telegram

/-! ## package main -/

/-- `main.Bot`, without `Conf`, which `Handle` and `Poll` do not read. -/
structure Bot where
  Reddit : reddit.Reddit
  Subreddits : reddit.Subreddits
  Telegram : telegram.Telegram

/-- What one run of `Bot.Handle` meets outside the process: the two outputs
of the random generator, in the order they are drawn, and the worlds of the
two clients. -/
structure World where
  pickDraw : Nat
  listingDraw : Nat
  reddit : reddit.World
  telegram : telegram.World

/-- The calls `Bot.Handle` makes on the two clients. -/
inductive Call where
  | TopListings (subreddit : String) (time : String) (limit : Int)
  | SendMessage (ChatId : Int) (Text : String) (ReplyToMessageId : Int)
  deriving DecidableEq, Repr

/-- How a run of `Bot.Handle` ends. -/
inductive Outcome where
  | returned (err : Option GoError)
  | panicked (fault : Fault)
  deriving DecidableEq, Repr

/-- A run of `Bot.Handle`: the client calls made, in order, and the end. -/
structure HandleResult where
  calls : List Call
  outcome : Outcome
  deriving DecidableEq, Repr

/-- `Bot.Handle`. -/
def Bot.Handle (b : Bot) (w : World) (update : telegram.Update) : HandleResult :=
  match strings_Split update.Message.Text ' ' with
  | [] => ⟨[], .panicked .indexOutOfRange⟩
  | command :: _ =>
    if command != "/get" && command != "/get@kungfu_kenny_bot" then
      ⟨[], .returned none⟩
    else
      let ChatId := update.Message.Chat.Id
      match b.Subreddits.PickRandom w.pickDraw ChatId with
      | .error f => ⟨[], .panicked f⟩
      | .ok subreddit =>
        let fetch := Call.TopListings subreddit "week" 5
        match (b.Reddit.TopListings w.reddit subreddit "week" 5).1 with
        | none => ⟨[fetch], .panicked .nilDereference⟩
        | some result =>
          match rand_Intn w.listingDraw result.ResponseData.Listings.length with
          | .error f => ⟨[fetch], .panicked f⟩
          | .ok i =>
            match result.ResponseData.Listings[i]? with
            | none => ⟨[fetch], .panicked .indexOutOfRange⟩
            | some child =>
              let listing := child.Listing
              let message := "/r/" ++ listing.Subreddit ++ ": " ++ listing.Title ++ " "
                ++ listing.Url
              let ReplyMessageId := update.Message.MessageId
              let err := b.Telegram.SendMessage w.telegram ChatId message ReplyMessageId
              ⟨[fetch, Call.SendMessage ChatId message ReplyMessageId], .returned err⟩

/-- One turn of the loop of `Bot.Poll` started with `offset`: the offset at
the end of the turn and the updates handed to `go b.Handle(update)`. -/
def Bot.pollCycle (b : Bot) (w : telegram.World) (offset : Int) : Int × List telegram.Update :=
  let updates := (b.Telegram.GetUpdates w offset).1
  let offset := updates.foldl (fun _ update => update.UpdateId) offset
  let offset := if offset != 0 then wrapInt (offset + 1) else offset
  (offset, updates)

/-- The turns of `Bot.Poll` from `offset` on, one per world: for each turn
the offset at its end and the updates it dispatched. -/
def Bot.pollFrom (b : Bot) (offset : Int) : List telegram.World → List (Int × List telegram.Update)
  | [] => []
  | w :: ws => b.pollCycle w offset :: Bot.pollFrom b (b.pollCycle w offset).1 ws

/-- `Bot.Poll`, the first `ws.length` turns of its endless loop; the offset
starts at 0. -/
def Bot.Poll (b : Bot) (ws : List telegram.World) : List (Int × List telegram.Update) :=
  b.pollFrom 0 ws

/-! ## Specification-side definitions -/

/-- The part of a message text before its first space (the whole text when
it has no space). -/
def firstWord (text : String) : String :=
  String.mk (text.data.takeWhile (fun c => c != ' '))

/-- The text is a command for the dispatcher: its first word is one of the
two command tokens. -/
def isCommand (text : String) : Prop :=
  firstWord text = "/get" ∨ firstWord text = "/get@kungfu_kenny_bot"

/-- The reply text for a listing. -/
def replyText (listing : reddit.Listing) : String :=
  "/r/" ++ listing.Subreddit ++ ": " ++ listing.Title ++ " " ++ listing.Url

instance (text : String) : Decidable (isCommand text) :=
  inferInstanceAs (Decidable (_ ∨ _))

/-- The value is in the range of a 64-bit Go `int`. -/
def isInt (x : Int) : Prop := -maxInt - 1 ≤ x ∧ x ≤ maxInt

instance (x : Int) : Decidable (isInt x) :=
  inferInstanceAs (Decidable (_ ∧ _))

/-- A turn of the poll loop started with `offset` is admissible when the
last update of the batch it receives, if any, has an `UpdateId` that is at
least `offset`, and the value the turn increments (that `UpdateId`, or
`offset` when there is no update) is below the largest `int`. -/
def Bot.cycleAdmissible (b : Bot) (w : telegram.World) (offset : Int) : Bool :=
  match (b.Telegram.GetUpdates w offset).1.getLast? with
  | none => decide (offset < maxInt)
  | some update => decide (offset ≤ update.UpdateId) && decide (update.UpdateId < maxInt)

/-- Every turn of the run from `offset` is admissible for the offset it
starts with. -/
def Bot.runAdmissible (b : Bot) : Int → List telegram.World → Bool
  | _, [] => true
  | offset, w :: ws =>
    b.cycleAdmissible w offset && Bot.runAdmissible b (b.pollCycle w offset).1 ws

/-! ## Concrete scenarios -/

/-- A routing configuration as decoded from YAML: chat 42 has the override
list `["earthporn"]`. -/
def exampleParsed : reddit.Subreddits :=
  { Default := ["pics", "spaceporn"], Custom := [⟨[42], ["earthporn"]⟩], Chats := fun _ => none }

/-- The routing table `NewSubreddits` builds from `exampleParsed`. -/
def exampleSubreddits : reddit.Subreddits :=
  { exampleParsed with Chats := reddit.fillChats exampleParsed.Custom (fun _ => none) }

/-- A bot with the routing table `exampleSubreddits`. -/
def exampleBot : Bot :=
  { Reddit := ⟨"user", "secret", "id", "idsecret", ⟨"tok", 3600, "*", "bearer"⟩, "agent"⟩,
    Subreddits := exampleSubreddits,
    Telegram := ⟨"bot123", "agent"⟩ }

/-- Reddit answers every request; the listing decodes to the single
candidate `earthporn, T1, u1`. -/
def redditUp : reddit.World :=
  { Do := fun _ => .ok ⟨("body", none)⟩,
    unmarshalToken := fun _ t => (t, none),
    unmarshalListings := fun _ => .ok (some ⟨⟨[⟨⟨"u1", "T1", "earthporn"⟩⟩]⟩⟩) }

/-- Reddit answers every request; the listing decodes to two candidates. -/
def twoListings : reddit.World :=
  { redditUp with
    unmarshalListings := fun _ =>
      .ok (some ⟨⟨[⟨⟨"u1", "T1", "earthporn"⟩⟩, ⟨⟨"u2", "T2", "earthporn"⟩⟩]⟩⟩) }

/-- Reddit answers the token request with a JSON object whose
`access_token` is a string and whose `expires_in` is a string too:
`json.Unmarshal` stores `access_token` into the token, skips `expires_in`
and returns the type error of that field. -/
def redditTypeMismatch : reddit.World :=
  { redditUp with
    unmarshalToken := fun _ t =>
      ({ t with AccessToken := "fresh" },
       some "json: cannot unmarshal string into Go struct field Token.expires_in of type int") }

/-- Every request to Reddit fails in the transport. -/
def redditDown : reddit.World :=
  { Do := fun _ => .error "dial tcp: i/o timeout",
    unmarshalToken := fun _ t => (t, none),
    unmarshalListings := fun _ => .ok none }

/-- Telegram answers every request with `ok: true` and the updates `updates`. -/
def telegramUp (updates : List telegram.Update) : telegram.World :=
  { Do := fun _ => .ok ⟨("body", none)⟩,
    unmarshalResponse := fun _ => .ok ⟨true, "", "result"⟩,
    unmarshalUpdates := fun _ => .ok updates }

/-- Every request to Telegram fails in the transport. -/
def telegramDown : telegram.World :=
  { Do := fun _ => .error "dial tcp: i/o timeout",
    unmarshalResponse := fun _ => .ok ⟨true, "", "result"⟩,
    unmarshalUpdates := fun _ => .ok [] }

/-- Both services up; both random draws are 0. -/
def exampleWorld : World := ⟨0, 0, redditUp, telegramUp []⟩

/-- Reddit down, Telegram up. -/
def outageWorld : World := ⟨0, 0, redditDown, telegramUp []⟩

/-- The update with id `id`, in chat 42, message 7, with text `text`. -/
def exampleUpdate (id : Int) (text : String) : telegram.Update :=
  ⟨id, ⟨7, ⟨42⟩, text⟩⟩

/-! ## Lemmas on the library model -/

lemma splitOnChar_eq_cons (sep : Char) (l : List Char) :
    ∃ rest, splitOnChar sep l = l.takeWhile (fun c => c != sep) :: rest := by
  induction l with
  | nil => exact ⟨[], rfl⟩
  | cons c cs ih =>
    obtain ⟨rest, hrest⟩ := ih
    by_cases hc : c = sep
    · exact ⟨splitOnChar sep cs, by simp [splitOnChar, hc]⟩
    · exact ⟨rest, by simp [splitOnChar, hc, hrest]⟩

lemma strings_Split_eq_cons (text : String) :
    ∃ rest, strings_Split text ' ' = firstWord text :: rest := by
  obtain ⟨rest, hrest⟩ := splitOnChar_eq_cons ' ' text.data
  exact ⟨rest.map String.mk, by simp [strings_Split, firstWord, hrest]⟩

lemma rand_Intn_lt (draw n : Nat) (hn : n ≠ 0) :
    ∃ i, rand_Intn draw n = .ok i ∧ i < n :=
  ⟨draw % n, by simp [rand_Intn, hn], Nat.mod_lt _ (Nat.pos_of_ne_zero hn)⟩

/-! ## Lemmas on `Bot.Handle` -/

lemma Handle_of_not_command (b : Bot) (w : World) (update : telegram.Update)
    (h : ¬ isCommand update.Message.Text) :
    b.Handle w update = ⟨[], .returned none⟩ := by
  obtain ⟨rest, hrest⟩ := strings_Split_eq_cons update.Message.Text
  have h1 : firstWord update.Message.Text ≠ "/get" := fun e => h (Or.inl e)
  have h2 : firstWord update.Message.Text ≠ "/get@kungfu_kenny_bot" := fun e => h (Or.inr e)
  simp [Bot.Handle, hrest, h1, h2]

lemma Handle_pick_fault (b : Bot) (w : World) (update : telegram.Update)
    (h : isCommand update.Message.Text) (f : Fault)
    (hpick : b.Subreddits.PickRandom w.pickDraw update.Message.Chat.Id = .error f) :
    b.Handle w update = ⟨[], .panicked f⟩ := by
  obtain ⟨rest, hrest⟩ := strings_Split_eq_cons update.Message.Text
  rcases h with h | h <;> simp [Bot.Handle, hrest, h, hpick]

lemma Handle_fetch_nil (b : Bot) (w : World) (update : telegram.Update)
    (h : isCommand update.Message.Text) (subreddit : String)
    (hpick : b.Subreddits.PickRandom w.pickDraw update.Message.Chat.Id = .ok subreddit)
    (hnil : (b.Reddit.TopListings w.reddit subreddit "week" 5).1 = none) :
    b.Handle w update = ⟨[Call.TopListings subreddit "week" 5], .panicked .nilDereference⟩ := by
  obtain ⟨rest, hrest⟩ := strings_Split_eq_cons update.Message.Text
  rcases h with h | h <;> simp [Bot.Handle, hrest, h, hpick, hnil]

lemma Handle_fetch_some (b : Bot) (w : World) (update : telegram.Update)
    (h : isCommand update.Message.Text) (subreddit : String)
    (hpick : b.Subreddits.PickRandom w.pickDraw update.Message.Chat.Id = .ok subreddit)
    (result : reddit.ListingsResponse)
    (hfetch : (b.Reddit.TopListings w.reddit subreddit "week" 5).1 = some result)
    (hne : result.ResponseData.Listings ≠ []) :
    ∃ i child, rand_Intn w.listingDraw result.ResponseData.Listings.length = .ok i ∧
      i < result.ResponseData.Listings.length ∧
      result.ResponseData.Listings[i]? = some child ∧
      b.Handle w update =
        ⟨[Call.TopListings subreddit "week" 5,
          Call.SendMessage update.Message.Chat.Id (replyText child.Listing)
            update.Message.MessageId],
         .returned (b.Telegram.SendMessage w.telegram update.Message.Chat.Id
            (replyText child.Listing) update.Message.MessageId)⟩ := by
  obtain ⟨rest, hrest⟩ := strings_Split_eq_cons update.Message.Text
  have hlen : result.ResponseData.Listings.length ≠ 0 := by
    simpa [List.length_eq_zero] using hne
  obtain ⟨i, hi, hlt⟩ := rand_Intn_lt w.listingDraw _ hlen
  have hget : result.ResponseData.Listings[i]? = some (result.ResponseData.Listings[i]) :=
    List.getElem?_eq_getElem hlt
  refine ⟨i, result.ResponseData.Listings[i], hi, hlt, hget, ?_⟩
  rcases h with h | h <;>
    simp [Bot.Handle, hrest, h, hpick, hfetch, hi, hget, replyText]

lemma TopListings_error_nil (r : reddit.Reddit) (w : reddit.World) (subreddit time : String)
    (limit : Int) (h : (r.TopListings w subreddit time limit).2 ≠ none) :
    (r.TopListings w subreddit time limit).1 = none := by
  unfold reddit.Reddit.TopListings at h ⊢
  simp only at h ⊢
  split
  · rfl
  · split
    · rfl
    · split
      · rfl
      · rename_i _ _ hh1 _ _ hh2 _ _ hh3
        simp [hh1, hh2, hh3] at h

lemma takeWhile_eq_iff_of_all {α : Type} (p : α → Bool) (c l : List α) (hc : ∀ x ∈ c, p x = true) :
    l.takeWhile p = c ↔ l = c ∨ ∃ y rest, p y = false ∧ l = c ++ y :: rest := by
  induction c generalizing l with
  | nil =>
    cases l with
    | nil => simp
    | cons a l =>
      by_cases ha : p a = true
      · simp [List.takeWhile_cons, ha]
      · simp only [Bool.not_eq_true] at ha
        simp [List.takeWhile_cons, ha]
  | cons x c ih =>
    have hx : p x = true := hc x (List.mem_cons_self _ _)
    have hc2 : ∀ z ∈ c, p z = true := fun z hz => hc z (List.mem_cons_of_mem _ hz)
    cases l with
    | nil => simp
    | cons a l =>
      by_cases ha : p a = true
      · simp only [List.takeWhile_cons, ha, if_true, List.cons.injEq, List.cons_append]
        constructor
        · rintro ⟨rfl, h⟩
          rcases (ih l hc2).1 h with h | ⟨y, rest, hy, h⟩
          · exact Or.inl ⟨rfl, h⟩
          · exact Or.inr ⟨y, rest, hy, rfl, h⟩
        · rintro (⟨rfl, h⟩ | ⟨y, rest, hy, rfl, h⟩)
          · exact ⟨rfl, (ih l hc2).2 (Or.inl h)⟩
          · exact ⟨rfl, (ih l hc2).2 (Or.inr ⟨y, rest, hy, h⟩)⟩
      · simp only [Bool.not_eq_true] at ha
        simp only [List.takeWhile_cons, ha, List.cons.injEq, List.cons_append]
        constructor
        · intro h
          simp at h
        · rintro (⟨rfl, _⟩ | ⟨y, rest, _, rfl, _⟩)
          · simp [hx] at ha
          · simp [hx] at ha

lemma firstWord_eq_iff (text c : String) (hc : ∀ x ∈ c.data, (x != ' ') = true) :
    firstWord text = c ↔ text = c ∨ ∃ rest : String, text = c ++ " " ++ rest := by
  have key := takeWhile_eq_iff_of_all (fun x => x != ' ') c.data text.data hc
  have e1 : firstWord text = c ↔ text.data.takeWhile (fun x => x != ' ') = c.data := by
    constructor
    · intro h
      rw [← h]
      rfl
    · intro h
      exact String.ext h
  rw [e1, key]
  constructor
  · rintro (h | ⟨y, rest, hy, h⟩)
    · exact Or.inl (String.ext h)
    · have hy2 : y = ' ' := by simpa using hy
      subst hy2
      refine Or.inr ⟨String.mk rest, String.ext ?_⟩
      simp [h, String.data_append]
  · rintro (h | ⟨rest, h⟩)
    · exact Or.inl (by rw [h])
    · refine Or.inr ⟨' ', rest.data, by simp, ?_⟩
      rw [h]
      simp [String.data_append]

lemma Handle_fetch_first (b : Bot) (w : World) (update : telegram.Update)
    (h : isCommand update.Message.Text) (subreddit : String)
    (hpick : b.Subreddits.PickRandom w.pickDraw update.Message.Chat.Id = .ok subreddit) :
    ∃ rest outcome, b.Handle w update = ⟨Call.TopListings subreddit "week" 5 :: rest, outcome⟩ := by
  cases hfetch : (b.Reddit.TopListings w.reddit subreddit "week" 5).1 with
  | none => exact ⟨[], _, Handle_fetch_nil b w update h subreddit hpick hfetch⟩
  | some result =>
    obtain ⟨rest, hrest⟩ := strings_Split_eq_cons update.Message.Text
    rcases h with h | h <;>
    · simp only [Bot.Handle, hrest, h, hpick, hfetch]
      simp only [bne_self_eq_false, Bool.false_and, Bool.and_false, Bool.false_eq_true, if_false]
      split
      · exact ⟨_, _, rfl⟩
      · split
        · exact ⟨_, _, rfl⟩
        · exact ⟨_, _, rfl⟩

lemma PickRandom_of_list (s : reddit.Subreddits) (draw : Nat) (chatId : Int) (list : List String)
    (hlist : (match s.Chats chatId with
      | some chatList => chatList
      | none => s.Default) = list)
    (hne : list ≠ []) :
    ∃ x ∈ list, s.PickRandom draw chatId = .ok x := by
  have hlen : list.length ≠ 0 := by simpa [List.length_eq_zero] using hne
  obtain ⟨i, hi, hlt⟩ := rand_Intn_lt draw _ hlen
  have hget : list[i]? = some (list[i]) := List.getElem?_eq_getElem hlt
  refine ⟨list[i], List.getElem_mem _, ?_⟩
  simp only [reddit.Subreddits.PickRandom, hlist, hi, hget]

/-! ## Lemmas on `Bot.Poll` -/

lemma GetUpdates_error_nil (t : telegram.Telegram) (w : telegram.World) (offset : Int)
    (h : (t.GetUpdates w offset).2 ≠ none) : (t.GetUpdates w offset).1 = [] := by
  unfold telegram.Telegram.GetUpdates at h ⊢
  simp only at h ⊢
  split
  · rfl
  · split
    · rfl
    · split
      · rfl
      · split
        · rfl
        · rename_i _ _ hh1 _ _ hh2 hok _ _ hh3
          simp [hh1, hh2, hh3, hok] at h

lemma foldl_last_UpdateId (updates : List telegram.Update) (offset : Int) :
    updates.foldl (fun _ update => update.UpdateId) offset
      = (updates.getLast?.map (fun update => update.UpdateId)).getD offset := by
  induction updates using List.reverseRecOn with
  | nil => rfl
  | append_singleton l a _ => simp [List.foldl_append]

lemma pollCycle_snd (b : Bot) (w : telegram.World) (offset : Int) :
    (b.pollCycle w offset).2 = (b.Telegram.GetUpdates w offset).1 := rfl

lemma pollCycle_fst (b : Bot) (w : telegram.World) (offset last : Int)
    (hlast : ((b.Telegram.GetUpdates w offset).1.getLast?.map
      (fun update => update.UpdateId)).getD offset = last) :
    (b.pollCycle w offset).1 = if last = 0 then 0 else wrapInt (last + 1) := by
  simp only [Bot.pollCycle, foldl_last_UpdateId, hlast]
  by_cases h : last = 0 <;> simp [h]

lemma wrapInt_of_isInt (x : Int) (h : isInt x) : wrapInt x = x := by
  unfold isInt maxInt at h
  unfold wrapInt
  omega

lemma pollCycle_mono (b : Bot) (w : telegram.World) (offset : Int) (h0 : 0 ≤ offset)
    (hadm : b.cycleAdmissible w offset = true) :
    offset ≤ (b.pollCycle w offset).1 := by
  unfold Bot.cycleAdmissible at hadm
  cases hlast : (b.Telegram.GetUpdates w offset).1.getLast? with
  | none =>
    rw [hlast] at hadm
    simp only [decide_eq_true_eq] at hadm
    rw [pollCycle_fst b w offset offset (by simp [hlast])]
    by_cases hz : offset = 0
    · simp [hz]
    · rw [if_neg hz, wrapInt_of_isInt _ (by unfold isInt maxInt at *; omega)]
      omega
  | some update =>
    rw [hlast] at hadm
    simp only [Bool.and_eq_true, decide_eq_true_eq] at hadm
    rw [pollCycle_fst b w offset update.UpdateId (by simp [hlast])]
    by_cases hz : update.UpdateId = 0
    · rw [if_pos hz]
      omega
    · rw [if_neg hz, wrapInt_of_isInt _ (by unfold isInt maxInt at *; omega)]
      omega

lemma pollFrom_chain (b : Bot) (ws : List telegram.World) :
    ∀ offset : Int, 0 ≤ offset → b.runAdmissible offset ws = true →
      List.Chain (fun before after => before ≤ after) offset
        ((b.pollFrom offset ws).map Prod.fst) := by
  induction ws with
  | nil =>
    intro offset _ _
    exact List.Chain.nil
  | cons w ws ih =>
    intro offset h0 hadm
    simp only [Bot.runAdmissible, Bool.and_eq_true] at hadm
    have hstep := pollCycle_mono b w offset h0 hadm.1
    simp only [Bot.pollFrom, List.map_cons]
    exact List.Chain.cons hstep (ih _ (le_trans h0 hstep) hadm.2)

/-! ## Lemmas on `NewSubreddits` -/

lemma foldl_mapSet (chats : List Int) (v : List String) (m : Int → Option (List String))
    (c : Int) :
    (chats.foldl (fun m chat => reddit.mapSet m chat v) m) c
      = if c ∈ chats then some v else m c := by
  induction chats generalizing m with
  | nil => simp
  | cons a chats ih =>
    rw [List.foldl_cons, ih]
    by_cases h1 : c ∈ chats
    · simp [h1]
    · by_cases h2 : c = a
      · simp [h1, h2, reddit.mapSet]
      · simp [h1, h2, reddit.mapSet]

lemma fillChats_cons (g : reddit.CustomGroup) (gs : List reddit.CustomGroup)
    (m : Int → Option (List String)) :
    reddit.fillChats (g :: gs) m
      = reddit.fillChats gs (g.Chats.foldl (fun m chat => reddit.mapSet m chat g.Subreddits) m) :=
  rfl

lemma fillChats_append (xs ys : List reddit.CustomGroup) (m : Int → Option (List String)) :
    reddit.fillChats (xs ++ ys) m = reddit.fillChats ys (reddit.fillChats xs m) := by
  simp [reddit.fillChats, List.foldl_append]

lemma fillChats_of_not_mem (gs : List reddit.CustomGroup) (m : Int → Option (List String))
    (c : Int) (h : ∀ g ∈ gs, c ∉ g.Chats) : reddit.fillChats gs m c = m c := by
  induction gs generalizing m with
  | nil => rfl
  | cons g gs ih =>
    rw [fillChats_cons, ih _ (fun g' hg' => h g' (List.mem_cons_of_mem _ hg')), foldl_mapSet,
      if_neg (h g (List.mem_cons_self _ _))]

lemma fillChats_ne_none_iff (gs : List reddit.CustomGroup) (m : Int → Option (List String))
    (c : Int) :
    reddit.fillChats gs m c ≠ none ↔ m c ≠ none ∨ ∃ g ∈ gs, c ∈ g.Chats := by
  induction gs generalizing m with
  | nil => simp [reddit.fillChats]
  | cons g gs ih =>
    rw [fillChats_cons, ih, foldl_mapSet]
    by_cases hc : c ∈ g.Chats
    · simp only [hc, if_true, ne_eq, reduceCtorEq, not_false_eq_true, true_or, true_iff]
      exact Or.inr ⟨g, List.mem_cons_self _ _, hc⟩
    · simp only [hc, if_false, List.mem_cons, exists_eq_or_imp, false_or]

lemma fillChats_last (pre post : List reddit.CustomGroup) (g : reddit.CustomGroup)
    (m : Int → Option (List String)) (c : Int) (hc : c ∈ g.Chats)
    (hpost : ∀ g' ∈ post, c ∉ g'.Chats) :
    reddit.fillChats (pre ++ g :: post) m c = some g.Subreddits := by
  rw [fillChats_append, fillChats_cons, fillChats_of_not_mem _ _ _ hpost, foldl_mapSet, if_pos hc]

/-! ## Lemmas on `Reddit.SetAccessToken` -/

lemma SetAccessToken_transport_failure (r : reddit.Reddit) (w : reddit.World) (err : GoError)
    (hdo : w.Do r.accessTokenRequest = .error err) :
    r.SetAccessToken w = (r, some err) := by
  simp only [reddit.Reddit.SetAccessToken, hdo]

lemma SetAccessToken_read_failure (r : reddit.Reddit) (w : reddit.World)
    (response : HttpResponse) (body : String) (err : GoError)
    (hdo : w.Do r.accessTokenRequest = .ok response) (hbody : response.Body = (body, some err)) :
    r.SetAccessToken w = (r, some err) := by
  simp only [reddit.Reddit.SetAccessToken, hdo, hbody]

/-! ## The claims -/

/-- C1 (amended): `Bot.Handle` looks only at the part of the message text
before its first space. That first word is a command token exactly when the
text is `/get` or `/get@kungfu_kenny_bot`, alone or followed by a space and
anything. When it is not a command token, `Handle` returns nil and calls
neither client; when it is, `Handle` does not end that way, and once a
subreddit is picked its first client call is `TopListings(subreddit, "week", 5)`. -/
theorem Handle_dispatches_iff_first_word (b : Bot) (w : World) (update : telegram.Update) :
    (isCommand update.Message.Text ↔
      ∃ c ∈ ["/get", "/get@kungfu_kenny_bot"],
        update.Message.Text = c ∨ ∃ rest : String, update.Message.Text = c ++ " " ++ rest) ∧
    (¬ isCommand update.Message.Text → b.Handle w update = ⟨[], .returned none⟩) ∧
    (isCommand update.Message.Text →
      b.Handle w update ≠ ⟨[], .returned none⟩ ∧
      ∀ subreddit,
        b.Subreddits.PickRandom w.pickDraw update.Message.Chat.Id = .ok subreddit →
        (b.Handle w update).calls.head? = some (Call.TopListings subreddit "week" 5)) := by
  refine ⟨?_, Handle_of_not_command b w update, fun h => ⟨?_, ?_⟩⟩
  · have e1 := firstWord_eq_iff update.Message.Text "/get" (by decide)
    have e2 := firstWord_eq_iff update.Message.Text "/get@kungfu_kenny_bot" (by decide)
    simp only [isCommand, e1, e2, List.mem_cons, List.mem_singleton, List.not_mem_nil, or_false,
      exists_eq_or_imp, exists_eq_left]
  · cases hpick : b.Subreddits.PickRandom w.pickDraw update.Message.Chat.Id with
    | error f =>
      rw [Handle_pick_fault b w update h f hpick]
      simp
    | ok subreddit =>
      obtain ⟨rest, outcome, hrun⟩ := Handle_fetch_first b w update h subreddit hpick
      rw [hrun]
      simp
  · intro subreddit hpick
    obtain ⟨rest, outcome, hrun⟩ := Handle_fetch_first b w update h subreddit hpick
    rw [hrun]
    rfl

/-- Witness for C1: `/get now` is a command and is dispatched, `/getx` and
`hello /get` are not commands and are ignored. -/
theorem Handle_dispatches_iff_first_word_witness :
    (isCommand "/get now" ∧
      exampleBot.Handle exampleWorld (exampleUpdate 1 "/get now") ≠ ⟨[], .returned none⟩) ∧
    (¬ isCommand "/getx" ∧
      exampleBot.Handle exampleWorld (exampleUpdate 1 "/getx") = ⟨[], .returned none⟩) ∧
    (¬ isCommand "hello /get" ∧
      exampleBot.Handle exampleWorld (exampleUpdate 1 "hello /get") = ⟨[], .returned none⟩) :=
  ⟨⟨by decide,
    ((Handle_dispatches_iff_first_word exampleBot exampleWorld
      (exampleUpdate 1 "/get now")).2.2 (by decide)).1⟩,
   ⟨by decide,
    (Handle_dispatches_iff_first_word exampleBot exampleWorld
      (exampleUpdate 1 "/getx")).2.1 (by decide)⟩,
   ⟨by decide,
    (Handle_dispatches_iff_first_word exampleBot exampleWorld
      (exampleUpdate 1 "hello /get")).2.1 (by decide)⟩⟩

/-- Counterexample to C1 as stated: the text `/get now` is neither `/get`
nor `/get@kungfu_kenny_bot`, yet `Handle` fetches listings and sends a reply. -/
theorem Handle_command_with_words_dispatches :
    "/get now" ≠ "/get" ∧ "/get now" ≠ "/get@kungfu_kenny_bot" ∧
    exampleBot.Handle exampleWorld (exampleUpdate 1 "/get now") =
      ⟨[Call.TopListings "earthporn" "week" 5,
        Call.SendMessage 42 "/r/earthporn: T1 u1" 7], .returned none⟩ := by
  decide

/-- C2 (the code at the failing input): with Reddit unreachable,
`TopListings` returns an error, and `Handle` on the command `/get` ends in a
nil-pointer panic after the fetch instead of returning an error. -/
theorem Handle_fetch_failure_panics :
    (exampleBot.Reddit.TopListings outageWorld.reddit "earthporn" "week" 5).2
      = some "dial tcp: i/o timeout" ∧
    exampleBot.Handle outageWorld (exampleUpdate 1 "/get") =
      ⟨[Call.TopListings "earthporn" "week" 5], .panicked .nilDereference⟩ := by
  decide

/-- C4: for every output of the random generator, `PickRandom` returns an
element of the chat's override list when the chat id is a key of `Chats`
with a non-empty list, and an element of `Default` when the chat id is not a
key and `Default` is non-empty. -/
theorem PickRandom_member (s : reddit.Subreddits) (draw : Nat) (chatId : Int) :
    (∀ chatList, s.Chats chatId = some chatList → chatList ≠ [] →
      ∃ x ∈ chatList, s.PickRandom draw chatId = .ok x) ∧
    (s.Chats chatId = none → s.Default ≠ [] →
      ∃ x ∈ s.Default, s.PickRandom draw chatId = .ok x) := by
  constructor
  · intro chatList hkey hne
    exact PickRandom_of_list s draw chatId chatList (by rw [hkey]) hne
  · intro hkey hne
    exact PickRandom_of_list s draw chatId s.Default (by rw [hkey]) hne

/-- Witness for C4: chat 42 has the override list `["earthporn"]`, chat 1
has none and the default list is non-empty. -/
theorem PickRandom_member_witness :
    (exampleSubreddits.Chats 42 = some ["earthporn"] ∧ ["earthporn"] ≠ [] ∧
      ∃ x ∈ ["earthporn"], exampleSubreddits.PickRandom 5 42 = .ok x) ∧
    (exampleSubreddits.Chats 1 = none ∧ exampleSubreddits.Default ≠ [] ∧
      ∃ x ∈ exampleSubreddits.Default, exampleSubreddits.PickRandom 5 1 = .ok x) :=
  ⟨⟨by decide, by decide,
    (PickRandom_member exampleSubreddits 5 42).1 ["earthporn"] (by decide) (by decide)⟩,
   ⟨by decide, by decide,
    (PickRandom_member exampleSubreddits 5 1).2 (by decide) (by decide)⟩⟩

/-- C5: on a command update, once a subreddit is picked and the listing
fetch succeeds with a non-empty candidate list, `Handle` makes exactly two
client calls, the fetch and then one `SendMessage`, whose chat id is the
update's chat id, whose reply-to id is the update's message id and whose
text is `"/r/" + subreddit + ": " + title + " " + url` of the candidate at
the drawn index; it returns what `SendMessage` returned. -/
theorem Handle_sends_one_reply (b : Bot) (w : World) (update : telegram.Update)
    (hcmd : isCommand update.Message.Text) (subreddit : String)
    (hpick : b.Subreddits.PickRandom w.pickDraw update.Message.Chat.Id = .ok subreddit)
    (result : reddit.ListingsResponse)
    (hfetch : b.Reddit.TopListings w.reddit subreddit "week" 5 = (some result, none))
    (hne : result.ResponseData.Listings ≠ []) :
    ∃ child ∈ result.ResponseData.Listings,
      result.ResponseData.Listings[w.listingDraw % result.ResponseData.Listings.length]?
        = some child ∧
      (b.Handle w update).calls =
        [Call.TopListings subreddit "week" 5,
         Call.SendMessage update.Message.Chat.Id
           ("/r/" ++ child.Listing.Subreddit ++ ": " ++ child.Listing.Title ++ " "
             ++ child.Listing.Url)
           update.Message.MessageId] ∧
      (b.Handle w update).outcome =
        .returned (b.Telegram.SendMessage w.telegram update.Message.Chat.Id
          ("/r/" ++ child.Listing.Subreddit ++ ": " ++ child.Listing.Title ++ " "
            ++ child.Listing.Url)
          update.Message.MessageId) := by
  have hfst : (b.Reddit.TopListings w.reddit subreddit "week" 5).1 = some result := by
    rw [hfetch]
  obtain ⟨i, child, hi, _, hget, hrun⟩ :=
    Handle_fetch_some b w update hcmd subreddit hpick result hfst hne
  have hlen : result.ResponseData.Listings.length ≠ 0 := by
    simpa [List.length_eq_zero] using hne
  have hidx : i = w.listingDraw % result.ResponseData.Listings.length := by
    simp only [rand_Intn, hlen, if_false, Except.ok.injEq] at hi
    exact hi.symm
  refine ⟨child, List.getElem?_mem hget, ?_, ?_, ?_⟩
  · rw [← hidx]
    exact hget
  · rw [hrun]
    rfl
  · rw [hrun]
    rfl

/-- Witness for C5, the scenario of the specification: chat 42 with the
override list `["earthporn"]`, the single candidate `earthporn, T1, u1`, the
text `/get` in message 7; the one reply is `/r/earthporn: T1 u1` to message 7
in chat 42. -/
theorem Handle_sends_one_reply_witness :
    isCommand "/get" ∧
    exampleBot.Subreddits.PickRandom exampleWorld.pickDraw 42 = .ok "earthporn" ∧
    exampleBot.Reddit.TopListings exampleWorld.reddit "earthporn" "week" 5
      = (some ⟨⟨[⟨⟨"u1", "T1", "earthporn"⟩⟩]⟩⟩, none) ∧
    (∃ child ∈ [(⟨⟨"u1", "T1", "earthporn"⟩⟩ : reddit.Child)],
      (exampleBot.Handle exampleWorld (exampleUpdate 1 "/get")).calls =
        [Call.TopListings "earthporn" "week" 5,
         Call.SendMessage 42
           ("/r/" ++ child.Listing.Subreddit ++ ": " ++ child.Listing.Title ++ " "
             ++ child.Listing.Url) 7]) ∧
    (exampleBot.Handle exampleWorld (exampleUpdate 1 "/get")).calls =
      [Call.TopListings "earthporn" "week" 5, Call.SendMessage 42 "/r/earthporn: T1 u1" 7] := by
  refine ⟨by decide, rfl, by decide, ?_, by decide⟩
  obtain ⟨child, hmem, _, hcalls, _⟩ :=
    Handle_sends_one_reply exampleBot exampleWorld (exampleUpdate 1 "/get") (by decide)
      "earthporn" rfl ⟨⟨[⟨⟨"u1", "T1", "earthporn"⟩⟩]⟩⟩ (by decide) (by decide)
  exact ⟨child, hmem, hcalls⟩

/-- C9: on a command update, when `TopListings` hands back a list of
`N > 0` candidates, the index `rand.Intn(N)` that `Handle` uses is below `N`
for every output of the random generator, the indexing succeeds, and the
listing the reply is built from is the candidate at that index, one of the
`N` returned. -/
theorem Handle_listing_index_in_range (b : Bot) (w : World) (update : telegram.Update)
    (hcmd : isCommand update.Message.Text) (subreddit : String)
    (hpick : b.Subreddits.PickRandom w.pickDraw update.Message.Chat.Id = .ok subreddit)
    (result : reddit.ListingsResponse)
    (hfetch : (b.Reddit.TopListings w.reddit subreddit "week" 5).1 = some result)
    (hne : result.ResponseData.Listings ≠ []) :
    ∃ i, rand_Intn w.listingDraw result.ResponseData.Listings.length = .ok i ∧
      i < result.ResponseData.Listings.length ∧
      ∃ child, result.ResponseData.Listings[i]? = some child ∧
        child ∈ result.ResponseData.Listings ∧
        (∀ fault, (b.Handle w update).outcome ≠ .panicked fault) ∧
        Call.SendMessage update.Message.Chat.Id (replyText child.Listing)
          update.Message.MessageId ∈ (b.Handle w update).calls := by
  obtain ⟨i, child, hi, hlt, hget, hrun⟩ :=
    Handle_fetch_some b w update hcmd subreddit hpick result hfetch hne
  refine ⟨i, hi, hlt, child, hget, List.getElem?_mem hget, ?_, ?_⟩
  · intro fault
    rw [hrun]
    simp
  · rw [hrun]
    simp

/-- Witness for C9: two candidates and the raw draw 7 give index 1. -/
theorem Handle_listing_index_in_range_witness :
    ∃ i, rand_Intn 7 2 = .ok i ∧ i < 2 ∧
      ∃ child, [(⟨⟨"u1", "T1", "earthporn"⟩⟩ : reddit.Child), ⟨⟨"u2", "T2", "earthporn"⟩⟩][i]?
          = some child ∧
        child ∈ [(⟨⟨"u1", "T1", "earthporn"⟩⟩ : reddit.Child), ⟨⟨"u2", "T2", "earthporn"⟩⟩] ∧
        (∀ fault, (exampleBot.Handle ⟨0, 7, twoListings, telegramUp []⟩
          (exampleUpdate 1 "/get")).outcome ≠ .panicked fault) ∧
        Call.SendMessage 42 (replyText child.Listing) 7 ∈
          (exampleBot.Handle ⟨0, 7, twoListings, telegramUp []⟩ (exampleUpdate 1 "/get")).calls :=
  Handle_listing_index_in_range exampleBot ⟨0, 7, twoListings, telegramUp []⟩
    (exampleUpdate 1 "/get") (by decide) "earthporn" rfl
    ⟨⟨[⟨⟨"u1", "T1", "earthporn"⟩⟩, ⟨⟨"u2", "T2", "earthporn"⟩⟩]⟩⟩ (by decide) (by decide)

/-- C3 (the code at the failing input): after a first turn that receives
update 4 the offset is 5; the second turn, whose `GetUpdates` fails,
dispatches nothing but ends with offset 6. -/
theorem Poll_failed_cycle_advances_offset :
    (exampleBot.Telegram.GetUpdates telegramDown 5).2 = some "dial tcp: i/o timeout" ∧
    exampleBot.Poll [telegramUp [exampleUpdate 4 "/get"], telegramDown] =
      [(5, [exampleUpdate 4 "/get"]), (6, [])] := by
  decide

/-- C6 (amended): over every run of `Bot.Poll` from offset 0 in which each
turn is admissible (a non-empty batch ends with an `UpdateId` at least the
offset it was requested with, and the value the turn increments is below the
largest `int`), failed turns included, the offset after each turn is greater
than or equal to the offset before it. -/
theorem Poll_offset_monotone (b : Bot) (ws : List telegram.World)
    (hadm : b.runAdmissible 0 ws = true) :
    List.Chain (fun before after => before ≤ after) 0 ((b.Poll ws).map Prod.fst) :=
  pollFrom_chain b ws 0 (le_refl 0) hadm

/-- Witness for C6: a batch with update 4, a failed turn, an empty batch
and a batch with updates 9 and 10. -/
theorem Poll_offset_monotone_witness :
    exampleBot.runAdmissible 0
      [telegramUp [exampleUpdate 4 "/get"], telegramDown, telegramUp [],
       telegramUp [exampleUpdate 9 "hi", exampleUpdate 10 "/get"]] = true ∧
    List.Chain (fun before after => before ≤ after) 0
      ((exampleBot.Poll
        [telegramUp [exampleUpdate 4 "/get"], telegramDown, telegramUp [],
         telegramUp [exampleUpdate 9 "hi", exampleUpdate 10 "/get"]]).map Prod.fst) :=
  ⟨by decide, Poll_offset_monotone exampleBot _ (by decide)⟩

/-- Counterexample to C6 as stated: a batch whose last `UpdateId` is below
the current offset takes the offset from 10 down to 4, and a failed turn at
the largest `int` wraps the offset round to the smallest. -/
theorem Poll_offset_can_decrease :
    (exampleBot.Poll [telegramUp [exampleUpdate 9 "a"], telegramUp [exampleUpdate 3 "b"]]).map
      Prod.fst = [10, 4] ∧
    (exampleBot.Poll [telegramUp [exampleUpdate 9223372036854775806 "a"], telegramDown]).map
      Prod.fst = [9223372036854775807, -9223372036854775808] := by
  decide

/-- C7 (amended): after a turn of `Bot.Poll` in which `GetUpdates` succeeds
with a non-empty batch of updates whose `UpdateId`s are 64-bit ints in
non-decreasing order and whose last `UpdateId` is neither 0 nor the largest
`int`, the offset is strictly greater than the `UpdateId` of every update of
the batch. -/
theorem pollCycle_offset_past_batch (b : Bot) (w : telegram.World) (offset : Int)
    (updates : List telegram.Update)
    (hfetch : b.Telegram.GetUpdates w offset = (updates, none))
    (hne : updates ≠ [])
    (hint : ∀ update ∈ updates, isInt update.UpdateId)
    (hsorted : updates.Pairwise (fun earlier later => earlier.UpdateId ≤ later.UpdateId))
    (hlast : ∀ update, updates.getLast? = some update →
      update.UpdateId ≠ 0 ∧ update.UpdateId ≠ maxInt) :
    ∀ update ∈ updates, update.UpdateId < (b.pollCycle w offset).1 := by
  obtain ⟨front, final, rfl⟩ : ∃ front final, updates = front ++ [final] :=
    ⟨updates.dropLast, updates.getLast hne, (List.dropLast_append_getLast hne).symm⟩
  have hl : (front ++ [final]).getLast? = some final := by simp
  obtain ⟨hz, hmax⟩ := hlast final hl
  have hfin := hint final (by simp)
  have hcycle : (b.pollCycle w offset).1 = final.UpdateId + 1 := by
    rw [pollCycle_fst b w offset final.UpdateId (by simp [hfetch]), if_neg hz]
    exact wrapInt_of_isInt _ (by unfold isInt maxInt at *; omega)
  intro update hmem
  rw [hcycle]
  rcases List.mem_append.1 hmem with hfront | hfinal
  · have := (List.pairwise_append.1 hsorted).2.2 update hfront final (by simp)
    omega
  · have : update = final := by simpa using hfinal
    subst this
    omega

/-- Witness for C7: the batch 5, 6, 8 requested with offset 5 leaves the
offset at 9. -/
theorem pollCycle_offset_past_batch_witness :
    exampleBot.Telegram.GetUpdates
        (telegramUp [exampleUpdate 5 "a", exampleUpdate 6 "b", exampleUpdate 8 "c"]) 5
      = ([exampleUpdate 5 "a", exampleUpdate 6 "b", exampleUpdate 8 "c"], none) ∧
    ∀ update ∈ [exampleUpdate 5 "a", exampleUpdate 6 "b", exampleUpdate 8 "c"],
      update.UpdateId <
        (exampleBot.pollCycle
          (telegramUp [exampleUpdate 5 "a", exampleUpdate 6 "b", exampleUpdate 8 "c"]) 5).1 :=
  ⟨by decide,
   pollCycle_offset_past_batch exampleBot
    (telegramUp [exampleUpdate 5 "a", exampleUpdate 6 "b", exampleUpdate 8 "c"]) 5
    [exampleUpdate 5 "a", exampleUpdate 6 "b", exampleUpdate 8 "c"]
    (by decide) (by decide) (by decide) (by decide) (by decide)⟩

/-- Counterexample to C7 as stated: each of these turns receives a
non-empty batch and ends with an offset that is not above every `UpdateId`
of the batch: 4 after the batch 5, 3; 0 after the batch 0; the smallest
`int` after a batch holding the largest. -/
theorem pollCycle_offset_not_past_batch :
    exampleBot.pollCycle (telegramUp [exampleUpdate 5 "a", exampleUpdate 3 "b"]) 0
      = (4, [exampleUpdate 5 "a", exampleUpdate 3 "b"]) ∧
    exampleBot.pollCycle (telegramUp [exampleUpdate 0 "a"]) 0 = (0, [exampleUpdate 0 "a"]) ∧
    exampleBot.pollCycle (telegramUp [exampleUpdate 9223372036854775807 "a"]) 0
      = (-9223372036854775808, [exampleUpdate 9223372036854775807 "a"]) := by
  decide

/-- C8 (the code at the failing input): Reddit answers the token request
with a body in which `access_token` decodes and `expires_in` does not;
`SetAccessToken` returns the decoding error, and the stored token, decoded in
place, no longer has the access token it had before the call. -/
theorem SetAccessToken_failure_alters_token :
    (exampleBot.Reddit.SetAccessToken redditTypeMismatch).2 ≠ none ∧
    exampleBot.Reddit.Token.AccessToken = "tok" ∧
    (exampleBot.Reddit.SetAccessToken redditTypeMismatch).1.Token.AccessToken = "fresh" ∧
    (exampleBot.Reddit.SetAccessToken redditTypeMismatch).1.Token ≠ exampleBot.Reddit.Token := by
  decide

/-- C10: when the configuration file is read and decoded, `NewSubreddits`
returns a table whose `Chats` has a chat id as key if and only if the chat id
occurs in the `Chats` of at least one `Custom` group, and maps it to the
`Subreddits` of the last group, in configuration order, that names it. -/
theorem NewSubreddits_chats (filepath file : String)
    (yamlUnmarshal : String → Except GoError reddit.Subreddits) (parsed : reddit.Subreddits)
    (hparse : yamlUnmarshal file = .ok parsed) :
    ∃ s, reddit.NewSubreddits filepath (.ok file) yamlUnmarshal = .ok s ∧
      s.Default = parsed.Default ∧ s.Custom = parsed.Custom ∧
      ∀ chat : Int,
        (s.Chats chat ≠ none ↔ ∃ group ∈ parsed.Custom, chat ∈ group.Chats) ∧
        ∀ earlier group later, parsed.Custom = earlier ++ group :: later →
          chat ∈ group.Chats → (∀ g ∈ later, chat ∉ g.Chats) →
          s.Chats chat = some group.Subreddits := by
  refine ⟨{ parsed with Chats := reddit.fillChats parsed.Custom (fun _ => none) },
    by simp only [reddit.NewSubreddits, hparse], rfl, rfl, fun chat => ⟨?_, ?_⟩⟩
  · simp [fillChats_ne_none_iff]
  · intro earlier group later hsplit hmem hlater
    simp only [hsplit]
    exact fillChats_last earlier later group _ chat hmem hlater

/-- Witness for C10: chat 42 is named by the first and the third group and
gets the list of the third; chat 5 is named by no group. -/
theorem NewSubreddits_chats_witness :
    ∃ s, reddit.NewSubreddits "subreddits.yaml" (.ok "yaml")
        (fun _ => .ok ⟨["pics"], [⟨[42, 7], ["earthporn"]⟩, ⟨[7], ["spaceporn"]⟩,
          ⟨[42], ["cityporn", "pics"]⟩], fun _ => none⟩) = .ok s ∧
      s.Chats 42 = some ["cityporn", "pics"] ∧ s.Chats 7 = some ["spaceporn"] ∧
      s.Chats 5 = none := by
  obtain ⟨s, hs, _, _, hchats⟩ := NewSubreddits_chats "subreddits.yaml" "yaml"
    (fun _ => .ok ⟨["pics"], [⟨[42, 7], ["earthporn"]⟩, ⟨[7], ["spaceporn"]⟩,
      ⟨[42], ["cityporn", "pics"]⟩], fun _ => none⟩) _ rfl
  refine ⟨s, hs, ?_, ?_, ?_⟩
  · exact (hchats 42).2 [⟨[42, 7], ["earthporn"]⟩, ⟨[7], ["spaceporn"]⟩]
      ⟨[42], ["cityporn", "pics"]⟩ [] rfl (by decide) (by decide)
  · exact (hchats 7).2 [⟨[42, 7], ["earthporn"]⟩] ⟨[7], ["spaceporn"]⟩
      [⟨[42], ["cityporn", "pics"]⟩] rfl (by decide) (by decide)
  · by_contra hne
    have := (hchats 5).1.1 hne
    revert this
    decide

end LumberBot
